import Mathlib

/-!
# A shallow embedding of the ForgeBuild_2 incremental build engine

This file models the core of `FB2.py` (the single source file of the
ForgeBuild_2 repository): the fingerprint function `hash_source`, the build
cache (`BuildCache`), the compile worker (`compiler_daemon`), the derived
object-file paths, the profile resolution in `BuildConfig.from_file`, and
the orchestrating `ForgeBuilder.build` sequence.  Theorems below settle the
spec claims about caching, fingerprint sensitivity, partial-failure
handling, and cache persistence.
-/

namespace ForgeBuild2

/-- A byte string (Python `bytes`), abstracted as a list of naturals. -/
abbrev Bytes := List Nat

/-- The byte stream absorbed by the SHA-256 object in `hash_source`
(`FB2.py` lines 97-120): the UTF-8 bytes of the resolved absolute path,
then the raw file contents, then each base flag, each profile flag and
each include-directory string in order — concatenated with no separator
bytes between items.  `hashlib.sha256` produces equal digests exactly when
it absorbs equal byte streams (up to collisions of SHA-256 itself), so
digest equality is modelled as equality of the absorbed stream. -/
def hash_source (resolved_path contents : Bytes)
    (base_flags profile_flags include_dirs : List Bytes) : Bytes :=
  resolved_path ++ contents ++ base_flags.flatten ++ profile_flags.flatten
    ++ include_dirs.flatten

/-- One value of `BuildCache.data` (`FB2.py` lines 228-232): the stored
fingerprint and the informational timestamp written by `update_entry`. -/
structure CacheEntry where
  hash : String
  timestamp : Nat
deriving DecidableEq

/-- `BuildCache.data`: a mapping from object-path strings to entries,
modelled as an association list in which the most recent binding for a key
shadows older ones (Python `dict` assignment followed by lookup). -/
abbrev Cache := List (String × CacheEntry)

/-- Dictionary lookup `self.data.get(str(obj_path))`
(`BuildCache.get_entry`, `FB2.py` lines 225-226). -/
def get_entry : Cache → String → Option CacheEntry
  | [], _ => none
  | (k, e) :: rest, key => if k = key then some e else get_entry rest key

/-- `BuildCache.update_entry` (`FB2.py` lines 228-232): store the
fingerprint and the current time under the object path, replacing any
previous binding (modelled by shadowing). -/
def update_entry (c : Cache) (obj_path source_hash : String) (now : Nat) : Cache :=
  (obj_path, ⟨source_hash, now⟩) :: c

/-- `BuildCache.needs_rebuild` (`FB2.py` lines 234-238): `true` when no
entry exists for the object path, or when the stored fingerprint differs
from the given one by exact string comparison. -/
def needs_rebuild (c : Cache) (obj_path source_hash : String) : Bool :=
  match get_entry c obj_path with
  | none => true
  | some e => decide (e.hash ≠ source_hash)

/-- `BuildCache._load` (`FB2.py` lines 211-219).  The outcome of reading
and JSON-parsing the persisted cache file is an input of the model:
`none` means the file does not exist; `some (.error e)` means opening or
parsing raised an exception (caught, warning logged); `some (.ok c)` means
the file parsed to the map `c`.  The first two cases yield the empty map. -/
def load_cache : Option (Except String Cache) → Cache
  | none => []
  | some (Except.error _) => []
  | some (Except.ok c) => c

/-- Split a list of characters at every occurrence of the separator
character; structural-recursion model of Python path-component splitting. -/
def splitOnChar (sep : Char) : List Char → List (List Char)
  | [] => [[]]
  | x :: xs =>
    match splitOnChar sep xs with
    | [] => [[x]]
    | y :: ys => if x = sep then [] :: y :: ys else (x :: y) :: ys

/-- `Path(src).name`: the final path component (POSIX separator). -/
def baseName (s : String) : String :=
  ⟨(splitOnChar '/' s.data).getLastD []⟩

/-- Index of the last `'.'` in a file name, if any (`str.rfind('.')`). -/
def lastDotPos (n : List Char) : Option Nat :=
  (n.reverse.findIdx? (· == '.')).map (fun j => n.length - 1 - j)

/-- `Path(name).with_suffix(".o")` applied to a bare file name: pathlib
treats a dot as starting the suffix only if it is neither the first nor
the last character of the name; the suffix, if present, is replaced by
`".o"`, otherwise `".o"` is appended. -/
def withSuffixO (name : String) : String :=
  match lastDotPos name.data with
  | some i =>
    if 0 < i ∧ i + 1 < name.data.length then ⟨name.data.take i⟩ ++ ".o"
    else name ++ ".o"
  | none => name ++ ".o"

/-- `src_path.with_suffix(".o").name` (`FB2.py` line 318): the derived
object-file name of a source path. -/
def objName (src : String) : String :=
  withSuffixO (baseName src)

/-- `self.output_dir / obj_name` (`FB2.py` line 319): the derived
object-file path, keyed into the cache as a string (POSIX separator). -/
def objPath (output_dir src : String) : String :=
  output_dir ++ "/" ++ objName src

/-- `Path(obj_path).parent`: everything before the final separator, or
`"."` for a bare file name. -/
def dirName (s : String) : String :=
  let parts := s.splitOn "/"
  if parts.length ≤ 1 then "." else String.intercalate "/" parts.dropLast

/-- Observable behaviour of one `compiler_daemon` invocation
(`FB2.py` lines 243-275): the directory created with
`mkdir(parents=True, exist_ok=True)`, the argument vector handed to
`subprocess.run`, and the returned triple. -/
structure DaemonResult where
  mkdirPath : String
  argv : List String
  ret : String × Nat × String
deriving DecidableEq

/-- `compiler_daemon` (`FB2.py` lines 243-275).  The external compiler is
modelled as a function `run` from the argument vector to the pair
(return code, captured standard error).  The command list is built
exactly as in the source: the fixed head, then one `-I<dir>` per include
directory in order, then the base flags, then the profile flags.  The
function is total: a non-zero return code is reported in the returned
triple, never raised. -/
def compiler_daemon (run : List String → Nat × String) (compiler_cmd : String)
    (base_flags profile_flags include_dirs : List String)
    (source obj_path : String) : DaemonResult :=
  let cmd := [compiler_cmd, "-c", source, "-o", obj_path]
  let cmd := cmd ++ include_dirs.map (fun inc => "-I" ++ inc)
  let cmd := cmd ++ base_flags
  let cmd := cmd ++ profile_flags
  let r := run cmd
  { mkdirPath := dirName obj_path, argv := cmd, ret := (source, r.1, r.2) }

/-- What one dispatched compile job does, as observed by
`_run_parallel_compilers` (`FB2.py` lines 371-387): either the future
itself raised (worker crash), or the compiler exited with a code and some
standard-error text. -/
inductive CompileResult where
  | crashed
  | exited (code : Nat) (stderrText : String)
deriving DecidableEq

/-- Whether an outcome sets the `errors` flag in `_run_parallel_compilers`
(`FB2.py` lines 373-384): a crash, or a non-zero exit code. -/
def isFailure : CompileResult → Bool
  | .crashed => true
  | .exited code _ => decide (code ≠ 0)

/-- One compilation unit as seen by `ForgeBuilder.build` (`FB2.py`
lines 312-326): the configured source path, its fingerprint computed by
`hash_source` (an input of the model), whether the source file is missing
on disk, and what the external compiler would do for it if dispatched. -/
structure SourceUnit where
  src : String
  fp : String
  result : CompileResult
  missing : Bool
deriving DecidableEq

/-- The classification loop of `ForgeBuilder.build` (`FB2.py` line 324):
a unit is dispatched when the force flag is set or the cache says its
object path needs a rebuild. -/
def staleUnits (cache : Cache) (output_dir : String) (units : List SourceUnit)
    (force : Bool) : List SourceUnit :=
  units.filter (fun u => force || needs_rebuild cache (objPath output_dir u.src) u.fp)

/-- Processing of one completed future in `_run_parallel_compilers`
(`FB2.py` lines 371-387): a crash or a non-zero exit sets the `errors`
flag; a zero exit updates the in-memory cache entry for the unit's object
path.  Draining `as_completed` over all futures is the fold of this step. -/
def compileStep (output_dir : String) (now : Nat) (acc : Cache × Bool)
    (u : SourceUnit) : Cache × Bool :=
  if isFailure u.result then (acc.1, true)
  else (update_entry acc.1 (objPath output_dir u.src) u.fp now, acc.2)

/-- The observable outcome of one `ForgeBuilder.build` invocation
(`FB2.py` lines 297-341): whether it aborted on a missing source file,
which units were dispatched as compile jobs, the in-memory cache after the
compile phase, whether compile errors occurred, whether the linker
subprocess was invoked, how many times `BuildCache.save` was attempted,
what cache map (if any) was durably written, and the process exit code. -/
structure BuildTrace where
  abortedMissing : Bool
  dispatched : List SourceUnit
  cacheAfter : Cache
  compileErrors : Bool
  linkInvoked : Bool
  saveAttempts : Nat
  persisted : Option Cache
  exitCode : Nat
deriving DecidableEq

/-- `ForgeBuilder.build` (`FB2.py` lines 297-341) together with
`_run_parallel_compilers` (345-391) and `_link` (393-428):
1. abort with exit code 1 if any configured source file is missing;
2. classify units, dispatch the stale ones, drain all their outcomes
   (successes update the in-memory cache even after a failure was seen);
3. if any job failed or crashed, exit 1 before linking;
4. otherwise invoke the linker unless the object list is empty
   (`_link` skips on an empty list); a non-zero linker exit is exit 1
   with no cache write;
5. otherwise call `BuildCache.save()` once; if the write raises
   (`saveOk = false`) the exception propagates uncaught and the Python
   process exits 1; on success the exit code is 0.
`linkExit` is the external linker's return code and `now` the clock value
used for the timestamps (informational only). -/
def build (cache : Cache) (output_dir : String) (units : List SourceUnit)
    (force : Bool) (linkExit : Nat) (saveOk : Bool) (now : Nat) : BuildTrace :=
  if units.any (fun u => u.missing) then
    { abortedMissing := true, dispatched := [], cacheAfter := cache,
      compileErrors := false, linkInvoked := false, saveAttempts := 0,
      persisted := none, exitCode := 1 }
  else
    let tasks := staleUnits cache output_dir units force
    let r := tasks.foldl (compileStep output_dir now) (cache, false)
    if r.2 then
      { abortedMissing := false, dispatched := tasks, cacheAfter := r.1,
        compileErrors := true, linkInvoked := false, saveAttempts := 0,
        persisted := none, exitCode := 1 }
    else if units ≠ [] ∧ linkExit ≠ 0 then
      { abortedMissing := false, dispatched := tasks, cacheAfter := r.1,
        compileErrors := false, linkInvoked := true, saveAttempts := 0,
        persisted := none, exitCode := 1 }
    else
      { abortedMissing := false, dispatched := tasks, cacheAfter := r.1,
        compileErrors := false, linkInvoked := decide (units ≠ []),
        saveAttempts := 1, persisted := if saveOk then some r.1 else none,
        exitCode := if saveOk then 0 else 1 }

/-- Profile resolution in `BuildConfig.from_file` (`FB2.py` lines
157-166): the name `"release"` selects `["-O3", "-DNDEBUG"]`; every other
name is renamed to `"debug"` and selects `["-O0", "-g"]`. -/
def resolveProfile (profile_name : String) : String × List String :=
  if profile_name = "release" then ("release", ["-O3", "-DNDEBUG"])
  else ("debug", ["-O0", "-g"])

/-- The configured profile name is read with
`build_section.get("profile", "debug")` (`FB2.py` line 157): an absent
key defaults to `"debug"` before resolution. -/
def profileFromConfig (configured : Option String) : String × List String :=
  resolveProfile (configured.getD "debug")

/-! ## Helper lemmas about the cache and the compile-phase fold -/

theorem get_entry_update_self (c : Cache) (k h : String) (t : Nat) :
    get_entry (update_entry c k h t) k = some ⟨h, t⟩ := by
  simp [update_entry, get_entry]

theorem get_entry_update_other (c : Cache) (k key h : String) (t : Nat)
    (hne : k ≠ key) :
    get_entry (update_entry c k h t) key = get_entry c key := by
  simp [update_entry, get_entry, hne]

/-- Draining all futures sets the `errors` flag exactly when some drained
job crashed or exited non-zero. -/
theorem compileFold_snd (output_dir : String) (now : Nat) (tasks : List SourceUnit)
    (c : Cache) (e : Bool) :
    (tasks.foldl (compileStep output_dir now) (c, e)).2
      = (e || tasks.any (fun u => isFailure u.result)) := by
  induction tasks generalizing c e with
  | nil => simp
  | cons t rest ih =>
    simp only [List.foldl_cons, List.any_cons]
    cases hf : isFailure t.result
    · simp [compileStep, hf, ih]
    · simp [compileStep, hf, ih]

/-- A cache key belonging to no successful drained job is left unchanged
by the compile phase. -/
theorem compileFold_get_entry_untouched (output_dir : String) (now : Nat)
    (tasks : List SourceUnit) (c : Cache) (e : Bool) (key : String)
    (h : ∀ u ∈ tasks, isFailure u.result = false → objPath output_dir u.src ≠ key) :
    get_entry (tasks.foldl (compileStep output_dir now) (c, e)).1 key
      = get_entry c key := by
  induction tasks generalizing c e with
  | nil => rfl
  | cons t rest ih =>
    simp only [List.foldl_cons]
    cases hf : isFailure t.result
    · have hstep : compileStep output_dir now (c, e) t
          = (update_entry c (objPath output_dir t.src) t.fp now, e) := by
        simp [compileStep, hf]
      rw [hstep, ih _ _ (fun u hu => h u (List.mem_cons_of_mem _ hu)),
        get_entry_update_other]
      exact h t (List.mem_cons_self _ _) hf
    · have hstep : compileStep output_dir now (c, e) t = (c, true) := by
        simp [compileStep, hf]
      rw [hstep]
      exact ih _ _ (fun u hu => h u (List.mem_cons_of_mem _ hu))

/-- If the drained jobs write to pairwise distinct object paths, then
after the compile phase every successful job's object path maps to that
job's fingerprint — regardless of failures among sibling jobs. -/
theorem compileFold_get_entry_success (output_dir : String) (now : Nat)
    (tasks : List SourceUnit) :
    ∀ (c : Cache) (e : Bool) (u : SourceUnit),
      (tasks.map (fun v => objPath output_dir v.src)).Nodup →
      u ∈ tasks → isFailure u.result = false →
      get_entry (tasks.foldl (compileStep output_dir now) (c, e)).1
          (objPath output_dir u.src)
        = some ⟨u.fp, now⟩ := by
  induction tasks with
  | nil => intro c e u _ hu; cases hu
  | cons t rest ih =>
    intro c e u hnd hu hs
    have hnd' : (rest.map (fun v => objPath output_dir v.src)).Nodup :=
      (List.nodup_cons.mp (by simpa using hnd)).2
    have hhead : objPath output_dir t.src
        ∉ rest.map (fun v => objPath output_dir v.src) :=
      (List.nodup_cons.mp (by simpa using hnd)).1
    simp only [List.foldl_cons]
    rcases List.mem_cons.mp hu with rfl | hmem
    · have hstep : compileStep output_dir now (c, e) u
          = (update_entry c (objPath output_dir u.src) u.fp now, e) := by
        simp [compileStep, hs]
      rw [hstep, compileFold_get_entry_untouched]
      · exact get_entry_update_self _ _ _ _
      · intro v hv _ hEq
        exact hhead (hEq ▸ List.mem_map_of_mem _ hv)
    · cases hf : isFailure t.result
      · have hstep : compileStep output_dir now (c, e) t
            = (update_entry c (objPath output_dir t.src) t.fp now, e) := by
          simp [compileStep, hf]
        rw [hstep]
        exact ih _ _ u hnd' hmem hs
      · have hstep : compileStep output_dir now (c, e) t = (c, true) := by
          simp [compileStep, hf]
        rw [hstep]
        exact ih _ _ u hnd' hmem hs

/-! ## Case analysis of `build` -/

theorem build_missing_case (cache : Cache) (output_dir : String)
    (units : List SourceUnit) (force : Bool) (linkExit : Nat) (saveOk : Bool)
    (now : Nat) (hm : units.any (fun u => u.missing) = true) :
    build cache output_dir units force linkExit saveOk now =
      { abortedMissing := true, dispatched := [], cacheAfter := cache,
        compileErrors := false, linkInvoked := false, saveAttempts := 0,
        persisted := none, exitCode := 1 } := by
  simp only [build]
  rw [if_pos hm]

theorem build_error_case (cache : Cache) (output_dir : String)
    (units : List SourceUnit) (force : Bool) (linkExit : Nat) (saveOk : Bool)
    (now : Nat) (hm : units.any (fun u => u.missing) = false)
    (he : (staleUnits cache output_dir units force).any
      (fun u => isFailure u.result) = true) :
    build cache output_dir units force linkExit saveOk now =
      { abortedMissing := false,
        dispatched := staleUnits cache output_dir units force,
        cacheAfter := ((staleUnits cache output_dir units force).foldl
          (compileStep output_dir now) (cache, false)).1,
        compileErrors := true, linkInvoked := false, saveAttempts := 0,
        persisted := none, exitCode := 1 } := by
  simp only [build]
  rw [if_neg (by simp [hm]), if_pos (by rw [compileFold_snd]; simp [he])]

theorem build_linkfail_case (cache : Cache) (output_dir : String)
    (units : List SourceUnit) (force : Bool) (linkExit : Nat) (saveOk : Bool)
    (now : Nat) (hm : units.any (fun u => u.missing) = false)
    (he : (staleUnits cache output_dir units force).any
      (fun u => isFailure u.result) = false)
    (hl : units ≠ [] ∧ linkExit ≠ 0) :
    build cache output_dir units force linkExit saveOk now =
      { abortedMissing := false,
        dispatched := staleUnits cache output_dir units force,
        cacheAfter := ((staleUnits cache output_dir units force).foldl
          (compileStep output_dir now) (cache, false)).1,
        compileErrors := false, linkInvoked := true, saveAttempts := 0,
        persisted := none, exitCode := 1 } := by
  simp only [build]
  rw [if_neg (by simp [hm]), if_neg (by rw [compileFold_snd]; simp [he]), if_pos hl]

theorem build_success_case (cache : Cache) (output_dir : String)
    (units : List SourceUnit) (force : Bool) (linkExit : Nat) (saveOk : Bool)
    (now : Nat) (hm : units.any (fun u => u.missing) = false)
    (he : (staleUnits cache output_dir units force).any
      (fun u => isFailure u.result) = false)
    (hl : units = [] ∨ linkExit = 0) :
    build cache output_dir units force linkExit saveOk now =
      { abortedMissing := false,
        dispatched := staleUnits cache output_dir units force,
        cacheAfter := ((staleUnits cache output_dir units force).foldl
          (compileStep output_dir now) (cache, false)).1,
        compileErrors := false, linkInvoked := decide (units ≠ []),
        saveAttempts := 1,
        persisted := if saveOk then
          some ((staleUnits cache output_dir units force).foldl
            (compileStep output_dir now) (cache, false)).1
          else none,
        exitCode := if saveOk then 0 else 1 } := by
  simp only [build]
  rw [if_neg (by simp [hm]), if_neg (by rw [compileFold_snd]; simp [he]),
    if_neg (by rcases hl with h | h <;> simp [h])]

/-- In every run that does not abort on a missing source, the dispatched
compile jobs are exactly the units classified stale. -/
theorem build_dispatched (cache : Cache) (output_dir : String)
    (units : List SourceUnit) (force : Bool) (linkExit : Nat) (saveOk : Bool)
    (now : Nat) (hm : units.any (fun u => u.missing) = false) :
    (build cache output_dir units force linkExit saveOk now).dispatched
      = staleUnits cache output_dir units force := by
  simp only [build]
  rw [if_neg (by simp [hm])]
  split
  · rfl
  · split <;> rfl

/-! ## Helper lemmas about the absorbed fingerprint stream -/

/-- Replacing the element at one fixed position of a flag list changes the
concatenation of the list exactly when the element changes. -/
theorem flatten_replace_inj {x y : Bytes} {l₁ l₂ : List Bytes}
    (h : (l₁ ++ x :: l₂).flatten = (l₁ ++ y :: l₂).flatten) : x = y := by
  rw [List.flatten_append, List.flatten_append, List.flatten_cons,
    List.flatten_cons] at h
  exact List.append_cancel_right (List.append_cancel_left h)

theorem hash_source_path_inj {p p' c : Bytes} {base profile inc : List Bytes}
    (h : hash_source p c base profile inc = hash_source p' c base profile inc) :
    p = p' := by
  unfold hash_source at h
  exact List.append_cancel_right (List.append_cancel_right
    (List.append_cancel_right (List.append_cancel_right h)))

theorem hash_source_contents_inj {p c c' : Bytes} {base profile inc : List Bytes}
    (h : hash_source p c base profile inc = hash_source p c' base profile inc) :
    c = c' := by
  unfold hash_source at h
  exact List.append_cancel_left (List.append_cancel_right
    (List.append_cancel_right (List.append_cancel_right h)))

theorem hash_source_base_inj {p c : Bytes} {base base' profile inc : List Bytes}
    (h : hash_source p c base profile inc = hash_source p c base' profile inc) :
    base.flatten = base'.flatten := by
  unfold hash_source at h
  exact List.append_cancel_left (List.append_cancel_right
    (List.append_cancel_right h))

theorem hash_source_profile_inj {p c : Bytes} {base profile profile' inc : List Bytes}
    (h : hash_source p c base profile inc = hash_source p c base profile' inc) :
    profile.flatten = profile'.flatten := by
  unfold hash_source at h
  exact List.append_cancel_left (List.append_cancel_right h)

theorem hash_source_inc_inj {p c : Bytes} {base profile inc inc' : List Bytes}
    (h : hash_source p c base profile inc = hash_source p c base profile inc') :
    inc.flatten = inc'.flatten := by
  unfold hash_source at h
  exact List.append_cancel_left h

/-! ## C1 — fingerprint sensitivity -/

/-- C1 counterexample: two distinct input tuples whose digests coincide
even assuming SHA-256 is collision-free, because `hash_source` absorbs the
flag and include-directory lists with no separators.  Reordering the
include-directory list `["\x02", "\x02\x02"]` to `["\x02\x02", "\x02"]`
leaves the absorbed stream unchanged, and moving a flag from the base
list to the profile list does too — refuting the claim that any change to
one of the five inputs (in particular include-directory order) changes
the digest. -/
theorem fingerprint_collision_counterexample :
    (hash_source [0] [1] [] [] [[2], [2, 2]]
        = hash_source [0] [1] [] [] [[2, 2], [2]]
      ∧ ([[2], [2, 2]] : List Bytes) ≠ [[2, 2], [2]])
    ∧ (hash_source [0] [1] [[3]] [] [] = hash_source [0] [1] [] [[3]] []
      ∧ ([[3]] : List Bytes) ≠ []) :=
  ⟨⟨rfl, by decide⟩, ⟨rfl, by decide⟩⟩

/-- C1 (amended): the digest (modelled, up to collisions of SHA-256, by
the absorbed byte stream) changes whenever exactly one of the five inputs
changes in a way that changes that input's own serialized bytes: a
different resolved path, different file contents, or a single flag or
include directory replaced at a fixed position of its list.  It does not
follow that every change to an input list changes the digest: as the
lists are absorbed without separators, changes preserving the
concatenation (splitting or merging flags, moving a flag across the
base/profile boundary, or reordering include dirs such as
`["a", "aa"]` to `["aa", "a"]`) produce the same digest. -/
theorem fingerprint_sensitivity_amended (p p' c c' x y : Bytes)
    (base profile inc b₁ b₂ f₁ f₂ i₁ i₂ : List Bytes) :
    (p ≠ p' → hash_source p c base profile inc ≠ hash_source p' c base profile inc)
    ∧ (c ≠ c' → hash_source p c base profile inc ≠ hash_source p c' base profile inc)
    ∧ (x ≠ y → hash_source p c (b₁ ++ x :: b₂) profile inc
        ≠ hash_source p c (b₁ ++ y :: b₂) profile inc)
    ∧ (x ≠ y → hash_source p c base (f₁ ++ x :: f₂) inc
        ≠ hash_source p c base (f₁ ++ y :: f₂) inc)
    ∧ (x ≠ y → hash_source p c base profile (i₁ ++ x :: i₂)
        ≠ hash_source p c base profile (i₁ ++ y :: i₂)) := by
  refine ⟨?_, ?_, ?_, ?_, ?_⟩
  · exact fun hne h => hne (hash_source_path_inj h)
  · exact fun hne h => hne (hash_source_contents_inj h)
  · exact fun hne h => hne (flatten_replace_inj (hash_source_base_inj h))
  · exact fun hne h => hne (flatten_replace_inj (hash_source_profile_inj h))
  · exact fun hne h => hne (flatten_replace_inj (hash_source_inc_inj h))

/-- C1 witness: the amended sensitivity at concrete inputs — changed
contents, and a single base flag changed at a fixed position. -/
theorem fingerprint_sensitivity_witness :
    hash_source [0] [1] [[9]] [[8]] [[7]] ≠ hash_source [0] [2] [[9]] [[8]] [[7]]
    ∧ hash_source [0] [1] ([[5]] ++ [3] :: [[6]]) [[8]] [[7]]
        ≠ hash_source [0] [1] ([[5]] ++ [4] :: [[6]]) [[8]] [[7]] :=
  ⟨(fingerprint_sensitivity_amended [0] [0] [1] [2] [3] [4] [[9]] [[8]] [[7]]
      [[5]] [[6]] [[5]] [[6]] [[5]] [[6]]).2.1 (by decide),
   (fingerprint_sensitivity_amended [0] [0] [1] [2] [3] [4] [[9]] [[8]] [[7]]
      [[5]] [[6]] [[5]] [[6]] [[5]] [[6]]).2.2.1 (by decide)⟩

/-! ## C2 — cache round-trip and idempotent rerun -/

/-- C2 counterexample: the round-trip parts of the claim hold, but its
consequence — "a build rerun with unchanged inputs dispatches zero compile
jobs" — fails on the code: two distinct sources `a/x.cpp` and `b/x.cpp`
derive the same object name `x.o`, so both cache entries are keyed by
`build/x.o` and the later success overwrites the earlier one.  The first
run succeeds and persists the cache, yet the rerun with identical inputs
dispatches a compile job for `a/x.cpp` again. -/
theorem cache_rerun_counterexample :
    (build [] "build"
        [⟨"a/x.cpp", "fpA", .exited 0 "", false⟩,
         ⟨"b/x.cpp", "fpB", .exited 0 "", false⟩] false 0 true 7).exitCode = 0
    ∧ (build
        ((build [] "build"
          [⟨"a/x.cpp", "fpA", .exited 0 "", false⟩,
           ⟨"b/x.cpp", "fpB", .exited 0 "", false⟩] false 0 true 7).persisted.getD [])
        "build"
        [⟨"a/x.cpp", "fpA", .exited 0 "", false⟩,
         ⟨"b/x.cpp", "fpB", .exited 0 "", false⟩] false 0 true 8).dispatched
      = [⟨"a/x.cpp", "fpA", .exited 0 "", false⟩] := by
  refine ⟨by decide, by decide⟩

/-- C2 (amended): for every artifact path and fingerprint, after
`update_entry(artifact, fp)` the call `needs_rebuild(artifact, fp)`
returns false, and `needs_rebuild(artifact, fp)` returns true exactly
when no entry exists for the artifact or the stored fingerprint differs
from `fp` by exact string equality; consequently — provided the units'
derived object paths are pairwise distinct — a build rerun with unchanged
inputs classifies every previously succeeded unit as cached and
dispatches zero compile jobs. -/
theorem cache_roundtrip_amended :
    (∀ (c : Cache) (k h : String) (t : Nat),
      needs_rebuild (update_entry c k h t) k h = false)
    ∧ (∀ (c : Cache) (k h : String),
      needs_rebuild c k h = true ↔
        get_entry c k = none ∨ ∃ e, get_entry c k = some e ∧ e.hash ≠ h)
    ∧ (∀ (cache0 : Cache) (output_dir : String) (units : List SourceUnit)
        (now now' linkExit' : Nat) (saveOk' : Bool),
      (units.map (fun u => objPath output_dir u.src)).Nodup →
      (∀ u ∈ units, u.missing = false) →
      (∀ u ∈ units, isFailure u.result = false) →
      ∃ c₁, (build cache0 output_dir units false 0 true now).persisted = some c₁
        ∧ (build c₁ output_dir units false linkExit' saveOk' now').dispatched
          = []) := by
  refine ⟨?_, ?_, ?_⟩
  · intro c k h t
    simp [needs_rebuild, get_entry_update_self]
  · intro c k h
    unfold needs_rebuild
    cases hg : get_entry c k with
    | none => simp [hg]
    | some e => simp [hg]
  · intro cache0 output_dir units now now' linkExit' saveOk' hnd hmiss hok
    have hm : units.any (fun u => u.missing) = false := by
      rw [List.any_eq_false]
      intro u hu
      simp [hmiss u hu]
    have hfail : (staleUnits cache0 output_dir units false).any
        (fun u => isFailure u.result) = false := by
      rw [List.any_eq_false]
      intro u hu
      simp [hok u (List.mem_of_mem_filter hu)]
    have hndT : ((staleUnits cache0 output_dir units false).map
        (fun v => objPath output_dir v.src)).Nodup :=
      hnd.sublist ((List.filter_sublist units).map _)
    refine ⟨((staleUnits cache0 output_dir units false).foldl
      (compileStep output_dir now) (cache0, false)).1, ?_, ?_⟩
    · rw [build_success_case cache0 output_dir units false 0 true now hm hfail
        (Or.inr rfl)]
      simp
    · rw [build_dispatched _ _ _ _ _ _ _ hm]
      apply List.filter_eq_nil_iff.mpr
      intro u hu
      suffices hnr : needs_rebuild
          ((staleUnits cache0 output_dir units false).foldl
            (compileStep output_dir now) (cache0, false)).1
          (objPath output_dir u.src) u.fp = false by
        simp [hnr]
      by_cases hmem : u ∈ staleUnits cache0 output_dir units false
      · have hent := compileFold_get_entry_success output_dir now
          (staleUnits cache0 output_dir units false) cache0 false u hndT hmem
          (hok u hu)
        simp [needs_rebuild, hent]
      · have hnr0 : needs_rebuild cache0 (objPath output_dir u.src) u.fp
            = false := by
          by_contra hx
          refine hmem (List.mem_filter.mpr ⟨hu, ?_⟩)
          simp only [Bool.not_eq_false] at hx
          simp [hx]
        have huntouched := compileFold_get_entry_untouched output_dir now
          (staleUnits cache0 output_dir units false) cache0 false
          (objPath output_dir u.src) ?_
        · unfold needs_rebuild at hnr0 ⊢
          rw [huntouched]
          exact hnr0
        · intro v hv _ hEq
          have hvU : v ∈ units := List.mem_of_mem_filter hv
          have hvne : v ≠ u := fun hEq2 => hmem (hEq2 ▸ hv)
          exact hvne (List.inj_on_of_nodup_map hnd hvU hu hEq)

/-- C2 witness: the amended rerun property at a concrete two-unit build
with distinct object paths. -/
theorem cache_roundtrip_witness :
    needs_rebuild (update_entry [] "build/a.o" "h1" 5) "build/a.o" "h1" = false
    ∧ ∃ c₁, (build [] "build"
        [⟨"a.cpp", "ha", .exited 0 "", false⟩,
         ⟨"b.cpp", "hb", .exited 0 "", false⟩] false 0 true 7).persisted = some c₁
      ∧ (build c₁ "build"
          [⟨"a.cpp", "ha", .exited 0 "", false⟩,
           ⟨"b.cpp", "hb", .exited 0 "", false⟩] false 0 false 8).dispatched = [] :=
  ⟨cache_roundtrip_amended.1 [] "build/a.o" "h1" 5,
   cache_roundtrip_amended.2.2 [] "build"
     [⟨"a.cpp", "ha", .exited 0 "", false⟩,
      ⟨"b.cpp", "hb", .exited 0 "", false⟩] 7 8 0 false
     (by decide) (by decide) (by decide)⟩

/-! ## C3 — partial-failure aggregation -/

/-- C3 counterexample: when the failing unit `a/x.cpp` and the succeeding
unit `b/x.cpp` derive the same object path `build/x.o`, the claim's "no
entry change for A" is violated: A was dispatched and failed, yet the
entry under A's artifact path changed (B's success wrote it). -/
theorem partial_failure_counterexample :
    (⟨"a/x.cpp", "fpA", .exited 1 "boom", false⟩ : SourceUnit)
        ∈ (build [] "build"
          [⟨"a/x.cpp", "fpA", .exited 1 "boom", false⟩,
           ⟨"b/x.cpp", "fpB", .exited 0 "", false⟩] false 0 true 7).dispatched
    ∧ isFailure (CompileResult.exited 1 "boom") = true
    ∧ get_entry (build [] "build"
          [⟨"a/x.cpp", "fpA", .exited 1 "boom", false⟩,
           ⟨"b/x.cpp", "fpB", .exited 0 "", false⟩] false 0 true 7).cacheAfter
        (objPath "build" "a/x.cpp") = some ⟨"fpB", 7⟩
    ∧ get_entry [] (objPath "build" "a/x.cpp") = none := by
  refine ⟨by decide, by decide, by decide, rfl⟩

/-- C3 (amended): in every build whose units derive pairwise distinct
object paths, if a dispatched unit A fails (or crashes) and a dispatched
unit B succeeds, then the scheduler drains all jobs (every succeeded
dispatched unit's entry is updated, regardless of position relative to
the failure), the in-memory Cache Store afterwards holds an updated entry
for B and an unchanged entry for A, the exit code is non-zero, the linker
is never invoked, and the cache is not persisted. -/
theorem partial_failure_aggregation (cache : Cache) (output_dir : String)
    (units : List SourceUnit) (force : Bool) (linkExit : Nat) (saveOk : Bool)
    (now : Nat) (A B : SourceUnit) (t : BuildTrace)
    (ht : t = build cache output_dir units force linkExit saveOk now)
    (hnd : (units.map (fun u => objPath output_dir u.src)).Nodup)
    (hA : A ∈ t.dispatched) (hAf : isFailure A.result = true)
    (hB : B ∈ t.dispatched) (hBs : isFailure B.result = false) :
    t.compileErrors = true ∧ t.exitCode = 1 ∧ t.linkInvoked = false
    ∧ t.saveAttempts = 0 ∧ t.persisted = none
    ∧ get_entry t.cacheAfter (objPath output_dir B.src) = some ⟨B.fp, now⟩
    ∧ get_entry t.cacheAfter (objPath output_dir A.src)
        = get_entry cache (objPath output_dir A.src)
    ∧ (∀ u ∈ t.dispatched, isFailure u.result = false →
        get_entry t.cacheAfter (objPath output_dir u.src) = some ⟨u.fp, now⟩) := by
  subst ht
  by_cases hm : units.any (fun u => u.missing) = true
  · rw [build_missing_case _ _ _ _ _ _ _ hm] at hA
    cases hA
  · replace hm : units.any (fun u => u.missing) = false := by
      simpa using hm
    rw [build_dispatched _ _ _ _ _ _ _ hm] at hA hB
    have hndT : ((staleUnits cache output_dir units force).map
        (fun v => objPath output_dir v.src)).Nodup :=
      hnd.sublist ((List.filter_sublist units).map _)
    have he : (staleUnits cache output_dir units force).any
        (fun u => isFailure u.result) = true :=
      List.any_eq_true.mpr ⟨A, hA, hAf⟩
    rw [build_error_case _ _ _ _ _ _ _ hm he]
    refine ⟨rfl, rfl, rfl, rfl, rfl, ?_, ?_, ?_⟩
    · exact compileFold_get_entry_success output_dir now _ cache false B hndT hB hBs
    · apply compileFold_get_entry_untouched
      intro v hv hvs hEq
      have hvne : v ≠ A := by
        intro hEq2
        rw [hEq2, hAf] at hvs
        cases hvs
      exact hvne (List.inj_on_of_nodup_map hnd (List.mem_of_mem_filter hv)
        (List.mem_of_mem_filter hA) hEq)
    · intro u hu hus
      exact compileFold_get_entry_success output_dir now _ cache false u hndT hu hus

/-- C3 witness: the amended property at a concrete build where `a.cpp`
fails to compile and `b.cpp` succeeds. -/
theorem partial_failure_witness :
    (build [] "build"
        [⟨"a.cpp", "ha", .exited 1 "boom", false⟩,
         ⟨"b.cpp", "hb", .exited 0 "", false⟩] false 0 true 7).exitCode = 1
    ∧ get_entry (build [] "build"
        [⟨"a.cpp", "ha", .exited 1 "boom", false⟩,
         ⟨"b.cpp", "hb", .exited 0 "", false⟩] false 0 true 7).cacheAfter
        (objPath "build" "b.cpp") = some ⟨"hb", 7⟩ :=
  ⟨((partial_failure_aggregation [] "build"
      [⟨"a.cpp", "ha", .exited 1 "boom", false⟩,
       ⟨"b.cpp", "hb", .exited 0 "", false⟩] false 0 true 7
      ⟨"a.cpp", "ha", .exited 1 "boom", false⟩
      ⟨"b.cpp", "hb", .exited 0 "", false⟩ _ rfl (by decide) (by decide)
      (by decide) (by decide) (by decide)).2.1),
   ((partial_failure_aggregation [] "build"
      [⟨"a.cpp", "ha", .exited 1 "boom", false⟩,
       ⟨"b.cpp", "hb", .exited 0 "", false⟩] false 0 true 7
      ⟨"a.cpp", "ha", .exited 1 "boom", false⟩
      ⟨"b.cpp", "hb", .exited 0 "", false⟩ _ rfl (by decide) (by decide)
      (by decide) (by decide) (by decide)).2.2.2.2.2.1)⟩

/-! ## C4 — cache persistence gating -/

/-- C4: `BuildCache.save` is attempted at most once per invocation, never
on the missing-source abort, never when a compile job failed or crashed,
never when an invoked link fails, and exactly once when the build
sequence succeeds (link succeeded or was skipped); on every abort path
nothing is written to the persisted cache. -/
theorem cache_persist_gating (cache : Cache) (output_dir : String)
    (units : List SourceUnit) (force : Bool) (linkExit : Nat) (saveOk : Bool)
    (now : Nat) (t : BuildTrace)
    (ht : t = build cache output_dir units force linkExit saveOk now) :
    t.saveAttempts ≤ 1
    ∧ (t.abortedMissing = true → t.saveAttempts = 0 ∧ t.persisted = none)
    ∧ (t.compileErrors = true → t.saveAttempts = 0 ∧ t.persisted = none)
    ∧ (t.linkInvoked = true → linkExit ≠ 0 → t.saveAttempts = 0 ∧ t.persisted = none)
    ∧ (t.abortedMissing = false → t.compileErrors = false →
        (units = [] ∨ linkExit = 0) → t.saveAttempts = 1) := by
  subst ht
  by_cases hm : units.any (fun u => u.missing) = true
  · rw [build_missing_case _ _ _ _ _ _ _ hm]
    refine ⟨by simp, fun _ => ⟨rfl, rfl⟩, by simp, by simp, by simp⟩
  · replace hm : units.any (fun u => u.missing) = false := by simpa using hm
    by_cases he : (staleUnits cache output_dir units force).any
        (fun u => isFailure u.result) = true
    · rw [build_error_case _ _ _ _ _ _ _ hm he]
      refine ⟨by simp, by simp, fun _ => ⟨rfl, rfl⟩, by simp, by simp⟩
    · replace he : (staleUnits cache output_dir units force).any
          (fun u => isFailure u.result) = false := by simpa using he
      by_cases hl : units ≠ [] ∧ linkExit ≠ 0
      · rw [build_linkfail_case _ _ _ _ _ _ _ hm he hl]
        refine ⟨by simp, by simp, by simp, fun _ _ => ⟨rfl, rfl⟩, ?_⟩
        intro _ _ h
        rcases h with h | h
        · exact absurd h hl.1
        · exact absurd h hl.2
      · have hl' : units = [] ∨ linkExit = 0 := by
          by_contra hx
          push_neg at hx
          exact hl ⟨hx.1, hx.2⟩
        rw [build_success_case _ _ _ _ _ _ _ hm he hl']
        refine ⟨by simp, by simp, by simp, ?_, fun _ _ _ => rfl⟩
        intro hlink hne
        have hlink' : decide (units ≠ []) = true := hlink
        exact absurd ⟨of_decide_eq_true hlink', hne⟩ hl

/-- C4 witness: concrete instances — a failed compile attempts no save, a
fully successful build attempts exactly one. -/
theorem cache_persist_gating_witness :
    ((build [] "build" [⟨"a.cpp", "ha", .exited 1 "boom", false⟩] false 0 true 7).saveAttempts = 0
      ∧ (build [] "build" [⟨"a.cpp", "ha", .exited 1 "boom", false⟩] false 0 true 7).persisted = none)
    ∧ (build [] "build" [⟨"a.cpp", "ha", .exited 0 "", false⟩] false 0 true 7).saveAttempts = 1 :=
  ⟨(cache_persist_gating [] "build" [⟨"a.cpp", "ha", .exited 1 "boom", false⟩]
      false 0 true 7 _ rfl).2.2.1 (by decide),
   (cache_persist_gating [] "build" [⟨"a.cpp", "ha", .exited 0 "", false⟩]
      false 0 true 7 _ rfl).2.2.2.2 (by decide) (by decide) (Or.inr rfl)⟩

/-! ## C6 — persist failure after a successful link -/

/-- C6 counterexample: a build in which every compile succeeds and the
link succeeds, but writing the cache back fails: `BuildCache.save` has no
exception handler (FB2.py lines 221-223, 336-341), so the exception
propagates out of `main` uncaught and the Python process exits 1 — the
build does NOT terminate as a success, refuting the claim. -/
theorem persist_failure_counterexample :
    (build [] "build" [⟨"a.cpp", "ha", .exited 0 "", false⟩] false 0 false 7).compileErrors = false
    ∧ (build [] "build" [⟨"a.cpp", "ha", .exited 0 "", false⟩] false 0 false 7).linkInvoked = true
    ∧ (build [] "build" [⟨"a.cpp", "ha", .exited 0 "", false⟩] false 0 false 7).saveAttempts = 1
    ∧ (build [] "build" [⟨"a.cpp", "ha", .exited 0 "", false⟩] false 0 false 7).exitCode = 1 := by
  refine ⟨rfl, by decide, rfl, rfl⟩

/-- C6 (amended): if writing the cache back to persistent storage fails
after a successful compile-and-link sequence, the exception propagates
unreported and uncaught, and the build terminates as a failure (non-zero
process exit), even though the binary was produced. -/
theorem persist_failure_fatal (cache : Cache) (output_dir : String)
    (units : List SourceUnit) (force : Bool) (linkExit : Nat) (now : Nat)
    (t : BuildTrace)
    (ht : t = build cache output_dir units force linkExit false now)
    (hm : t.abortedMissing = false) (he : t.compileErrors = false)
    (hl : units = [] ∨ linkExit = 0) :
    t.saveAttempts = 1 ∧ t.persisted = none ∧ t.exitCode = 1 := by
  by_cases hm' : units.any (fun u => u.missing) = true
  · rw [build_missing_case _ _ _ _ _ _ _ hm'] at ht
    rw [ht] at hm
    cases hm
  · replace hm' : units.any (fun u => u.missing) = false := by simpa using hm'
    by_cases he' : (staleUnits cache output_dir units force).any
        (fun u => isFailure u.result) = true
    · rw [build_error_case _ _ _ _ _ _ _ hm' he'] at ht
      rw [ht] at he
      cases he
    · replace he' : (staleUnits cache output_dir units force).any
          (fun u => isFailure u.result) = false := by simpa using he'
      rw [build_success_case _ _ _ _ _ _ _ hm' he' hl] at ht
      rw [ht]
      exact ⟨rfl, by simp, by simp⟩

/-- C6 witness: the amended property at a concrete one-unit build whose
cache write fails. -/
theorem persist_failure_fatal_witness :
    (build [] "build" [⟨"b.cpp", "hb", .exited 0 "", false⟩] false 0 false 9).saveAttempts = 1
    ∧ (build [] "build" [⟨"b.cpp", "hb", .exited 0 "", false⟩] false 0 false 9).persisted = none
    ∧ (build [] "build" [⟨"b.cpp", "hb", .exited 0 "", false⟩] false 0 false 9).exitCode = 1 :=
  persist_failure_fatal [] "build" [⟨"b.cpp", "hb", .exited 0 "", false⟩]
    false 0 9 _ rfl (by decide) (by decide) (Or.inr rfl)

/-! ## C8 — force-build bypasses classification -/

/-- C8: with the force flag set (the `force-build` command, FB2.py lines
587-588 and 324), every unit of the source list is classified stale and
dispatched, whatever the cache contains — even when its fingerprint
equals the stored one.  The only proviso is the one the code enforces
earlier in the same loop: no configured source file is missing (that
aborts the build before dispatch as a configuration error). -/
theorem force_build_dispatches_all (cache : Cache) (output_dir : String)
    (units : List SourceUnit) (linkExit : Nat) (saveOk : Bool) (now : Nat)
    (hm : ∀ u ∈ units, u.missing = false) :
    (build cache output_dir units true linkExit saveOk now).dispatched = units := by
  have hm' : units.any (fun u => u.missing) = false := by
    rw [List.any_eq_false]
    intro u hu
    simp [hm u hu]
  rw [build_dispatched _ _ _ _ _ _ _ hm']
  unfold staleUnits
  simp

/-- C8 witness: force-build dispatches the unit even though its cached
fingerprint matches exactly. -/
theorem force_build_dispatches_all_witness :
    needs_rebuild [("build/a.o", ⟨"h1", 3⟩)] (objPath "build" "a.cpp") "h1" = false
    ∧ (build [("build/a.o", ⟨"h1", 3⟩)] "build"
        [⟨"a.cpp", "h1", .exited 0 "", false⟩] true 0 true 7).dispatched
      = [⟨"a.cpp", "h1", .exited 0 "", false⟩] :=
  ⟨by decide,
   force_build_dispatches_all [("build/a.o", ⟨"h1", 3⟩)] "build"
     [⟨"a.cpp", "h1", .exited 0 "", false⟩] 0 true 7 (by decide)⟩

/-! ## C5 — compile worker contract -/

/-- C5: `compiler_daemon` records the parent directory of the object path
as the directory it creates (with `parents=True, exist_ok=True`), runs the
external compiler with arguments in exactly the order
`[compiler_command, "-c", source, "-o", object, one -I<dir> per include
dir in order, all base flags, all profile flags]`, and returns the triple
`(source_path, exit_code, stderr_text)` for every compiler behaviour —
in particular it is a total function of the compiler's exit code, so a
non-zero exit is reported in the returned value, never raised. -/
theorem compiler_daemon_contract (run : List String → Nat × String)
    (compiler_cmd : String) (base_flags profile_flags include_dirs : List String)
    (source obj_path : String) :
    (compiler_daemon run compiler_cmd base_flags profile_flags include_dirs
        source obj_path).argv
      = [compiler_cmd, "-c", source, "-o", obj_path]
          ++ include_dirs.map (fun inc => "-I" ++ inc)
          ++ base_flags ++ profile_flags
    ∧ (compiler_daemon run compiler_cmd base_flags profile_flags include_dirs
        source obj_path).ret
      = (source,
         (run ([compiler_cmd, "-c", source, "-o", obj_path]
           ++ include_dirs.map (fun inc => "-I" ++ inc)
           ++ base_flags ++ profile_flags)).1,
         (run ([compiler_cmd, "-c", source, "-o", obj_path]
           ++ include_dirs.map (fun inc => "-I" ++ inc)
           ++ base_flags ++ profile_flags)).2)
    ∧ (compiler_daemon run compiler_cmd base_flags profile_flags include_dirs
        source obj_path).mkdirPath = dirName obj_path :=
  ⟨rfl, rfl, rfl⟩

/-! ## C7 — cache load fails soft -/

/-- C7: loading the Cache Store returns the empty map whenever the
persisted file is absent, or present but unreadable or unparsable (both
exception cases are caught, FB2.py lines 211-219), and on the empty map
every unit is classified stale — a full rebuild, never a hard failure
(`load_cache` is total). -/
theorem cache_load_fails_soft :
    load_cache none = []
    ∧ (∀ e : String, load_cache (some (Except.error e)) = [])
    ∧ (∀ obj fp : String, needs_rebuild (load_cache none) obj fp = true)
    ∧ (∀ (e obj fp : String),
        needs_rebuild (load_cache (some (Except.error e))) obj fp = true) :=
  ⟨rfl, fun _ => rfl, fun _ _ => rfl, fun _ _ _ => rfl⟩

/-! ## C9 — distinct object paths -/

/-- C9 counterexample: the distinct source paths `a/x.cpp` and `b/x.cpp`
derive the same output-artifact path `build/x.o`, because the derived
name keeps only the stem of the final path component (FB2.py line 318) —
so two compile jobs write to the same object file. -/
theorem object_path_clash_counterexample :
    objPath "build" "a/x.cpp" = objPath "build" "b/x.cpp"
    ∧ ("a/x.cpp" : String) ≠ "b/x.cpp" :=
  ⟨rfl, by decide⟩

/-- C9 (amended): two sources derive the same output-artifact path under
a common output directory exactly when they derive the same object-file
name (same stem of the final path component); in particular the derived
paths of two distinct sources are distinct if and only if their derived
object names differ — distinct sources sharing a stem (even in different
directories) collide. -/
theorem object_paths_distinct_amended (output_dir s₁ s₂ : String) :
    objPath output_dir s₁ = objPath output_dir s₂ ↔ objName s₁ = objName s₂ := by
  constructor
  · intro h
    unfold objPath at h
    have hd := congrArg String.data h
    rw [String.data_append, String.data_append, String.data_append,
      String.data_append] at hd
    exact String.ext (List.append_cancel_left hd)
  · intro h
    unfold objPath
    rw [h]

/-- C9 witness: two sources with distinct stems derive distinct object
paths. -/
theorem object_paths_distinct_witness :
    objPath "build" "src/a.cpp" ≠ objPath "build" "src/b.cpp" := by
  intro h
  exact absurd ((object_paths_distinct_amended "build" "src/a.cpp" "src/b.cpp").mp h)
    (by decide)

/-! ## C10 — profile fallback -/

/-- C10: resolving a configured profile name yields exactly two outcomes:
`"release"` selects flags `["-O3", "-DNDEBUG"]`, and every other name
(including misspellings) is silently renamed to `"debug"` and selects
`["-O0", "-g"]`; no name is ever rejected (`resolveProfile` is total),
and an absent profile key defaults to `"debug"`. -/
theorem profile_fallback (name : String) :
    (resolveProfile name = ("release", ["-O3", "-DNDEBUG"])
      ∨ resolveProfile name = ("debug", ["-O0", "-g"]))
    ∧ (resolveProfile name = ("release", ["-O3", "-DNDEBUG"]) ↔ name = "release")
    ∧ ((resolveProfile name).1 = "debug" ↔ name ≠ "release")
    ∧ profileFromConfig (some name) = resolveProfile name
    ∧ profileFromConfig none = ("debug", ["-O0", "-g"]) := by
  unfold profileFromConfig resolveProfile
  by_cases h : name = "release" <;> simp [h]

/-- C10 witness: a misspelled profile name falls back to the debug
profile. -/
theorem profile_fallback_witness :
    resolveProfile "relaese" = ("debug", ["-O0", "-g"]) := by
  rcases (profile_fallback "relaese").1 with h | h
  · exact absurd ((profile_fallback "relaese").2.1.mp h) (by decide)
  · exact h

end ForgeBuild2
